import Mathlib

/-!
Shallow embedding of `video_frame_extractor` (chibuezedev/video-frame-extractor),
focused on `VideoFrameExtractor.__init__`, `VideoFrameExtractor.extract_frames`
and `VideoFrameExtractor.run` in `src/video_frame_extractor/extractor.py`, plus
the window validation in `src/video_frame_extractor/cli.py`.

Modelling conventions:
- Python floats (fps, times, intervals) are modelled as rationals `ℚ`;
  Python `int(x)` truncates toward zero, modelled by `pyInt`.
- `cv2.VideoCapture` is an external collaborator: it is modelled by
  `VideoProps` (fps, frame count, dimensions, all read once at open) together
  with `readable : ℕ` — `cap.read()` at absolute position `i` succeeds iff
  `i < readable` (sequential decode from the seek position).
- `cv2.imwrite` is an external collaborator returning a success flag that the
  Python code never inspects; it is modelled by a write oracle
  `wr : ℕ → Bool` giving the outcome of the write for the frame at absolute
  index `f`.
- A raised-and-caught exception inside `extract_frames` (the function body is
  wrapped in `try/except` returning 0) is modelled by the `err` flag of
  `ExtractResult`; the exceptional return value is 0.
-/

namespace VFE

/-- Python `int(q)`: truncation toward zero (floor for nonnegative values,
ceiling for negative ones). -/
def pyInt (q : ℚ) : ℤ := if 0 ≤ q then ⌊q⌋ else ⌈q⌉

/-- The configuration fields stored by `VideoFrameExtractor.__init__`
(extractor.py lines 42-48). `video_url`, `output_folder` and `log_level`
carry no arithmetic content and are omitted. -/
structure Config where
  interval : ℚ
  quality : ℤ
  maxWidth : Option ℕ
  startTime : ℚ
  endTime : Option ℚ
deriving Repr, DecidableEq

/-- `VideoFrameExtractor.__init__` (extractor.py lines 44-48):
`self.interval = interval`, `self.quality = max(1, min(100, quality))`,
`self.max_width = max_width`, `self.start_time = max(0, start_time)`,
`self.end_time = end_time`. -/
def init (interval : ℚ) (quality : ℤ) (maxWidth : Option ℕ)
    (startTime : ℚ) (endTime : Option ℚ) : Config :=
  { interval := interval
    quality := max 1 (min 100 quality)
    maxWidth := maxWidth
    startTime := max 0 startTime
    endTime := endTime }

/-- Source-video properties read once from the opened capture
(extractor.py lines 175-176 and the frame dimensions `frame.shape`). -/
structure VideoProps where
  fps : ℚ
  totalFrames : ℕ
  width : ℕ
  height : ℕ
deriving Repr, DecidableEq

/-- One saved frame: the data encoded in the output filename
`frame_{saved_count:04d}_time_{current_time:.1f}s.jpg` plus the written
image dimensions; `ok` records the result of `cv2.imwrite`, which the
code ignores (extractor.py line 209). -/
structure Frame where
  seqIndex : ℕ
  absIndex : ℕ
  timestamp : ℚ
  width : ℕ
  height : ℕ
  ok : Bool
deriving Repr, DecidableEq

/-- extractor.py line 179:
`start_frame = int(self.start_time * fps) if self.start_time > 0 else 0`. -/
def startFrame (c : Config) (fps : ℚ) : ℤ :=
  if 0 < c.startTime then pyInt (c.startTime * fps) else 0

/-- extractor.py lines 180-181:
`end_frame = int(self.end_time * fps) if self.end_time else total_frames;`
`end_frame = min(end_frame, total_frames)`. A stored `end_time` of `0` is
falsy in Python and is treated as "not set". -/
def endFrame (c : Config) (fps : ℚ) (total : ℕ) : ℤ :=
  min (match c.endTime with
       | some e => if e = 0 then (total : ℤ) else pyInt (e * fps)
       | none => (total : ℤ))
    (total : ℤ)

/-- extractor.py line 189: `interval_frames = int(fps * self.interval)`. -/
def intervalFrames (c : Config) (fps : ℚ) : ℤ := pyInt (fps * c.interval)

/-- extractor.py lines 200-204: if `max_width` is truthy (set and nonzero)
and the frame width exceeds it, the written frame has width `max_width` and
height `int(height * (max_width / width))`; otherwise the frame is unscaled. -/
def scaledDims (maxWidth : Option ℕ) (w h : ℕ) : ℕ × ℕ :=
  match maxWidth with
  | some m =>
      if m ≠ 0 ∧ m < w then
        (m, (pyInt ((h : ℚ) * ((m : ℚ) / (w : ℚ)))).toNat)
      else (w, h)
  | none => (w, h)

/-- The frame written at absolute index `f` as the `s`-th save
(extractor.py lines 198-209): timestamp `f / fps`, scaled dimensions,
imwrite outcome `wr f`. -/
def mkFrame (c : Config) (v : VideoProps) (wr : ℕ → Bool) (s f : ℕ) : Frame :=
  { seqIndex := s
    absIndex := f
    timestamp := (f : ℚ) / v.fps
    width := (scaledDims c.maxWidth v.width v.height).1
    height := (scaledDims c.maxWidth v.width v.height).2
    ok := wr f }

/-- Result of (the model of) `extract_frames`: the frames written (in order),
the returned count, and whether the `except` path was taken. -/
structure ExtractResult where
  frames : List Frame
  ret : ℕ
  err : Bool
deriving Repr, DecidableEq

/-- The `while frame_count < end_frame` loop of extractor.py lines 191-213.
`steps` is the number of remaining loop iterations `end_frame - frame_count`,
`f` the current absolute position `frame_count`, `s` the current
`saved_count`. `cap.read()` fails (and the loop breaks) once `readable ≤ f`.
If `interval_frames = 0`, evaluating `(frame_count - start_frame) %
interval_frames` raises `ZeroDivisionError`, which the surrounding
`try/except` turns into a return of 0 — modelled by the `err` flag.
In `ret` the loop carries the running `saved_count`. -/
def extractLoop (c : Config) (v : VideoProps) (readable : ℕ) (wr : ℕ → Bool)
    (startF : ℕ) (intervalF : ℤ) : ℕ → ℕ → ℕ → ExtractResult
  | 0, _, s => ⟨[], s, false⟩
  | steps + 1, f, s =>
      if readable ≤ f then ⟨[], s, false⟩
      else if intervalF = 0 then ⟨[], s, true⟩
      else if ((f : ℤ) - (startF : ℤ)) % intervalF = 0 then
        let r := extractLoop c v readable wr startF intervalF steps (f + 1) (s + 1)
        ⟨mkFrame c v wr s f :: r.frames, r.ret, r.err⟩
      else extractLoop c v readable wr startF intervalF steps (f + 1) s

/-- The extraction loop at its entry point (extractor.py lines 185-213): the
capture is seeked to `start_frame` (line 185), `frame_count` starts at
`start_frame` and `saved_count` at 0 (lines 187-188), and the loop runs
`end_frame - start_frame` iterations unless `cap.read()` fails first. -/
def loopOf (c : Config) (v : VideoProps) (readable : ℕ)
    (wr : ℕ → Bool) : ExtractResult :=
  extractLoop c v readable wr (startFrame c v.fps).toNat
    (intervalFrames c v.fps)
    (endFrame c v.fps v.totalFrames - startFrame c v.fps).toNat
    (startFrame c v.fps).toNat 0

/-- `VideoFrameExtractor.extract_frames` (extractor.py lines 159-223),
assuming the capture opens (line 171; an unopened capture returns 0 with no
frames). `duration = total_frames / fps` (line 177) raises
`ZeroDivisionError` when `fps = 0`, caught by the `except` returning 0.
Otherwise the window indices are computed and the loop runs; on the
exception path the function returns 0 (files already written stay on
disk, though on the only exception path — `interval_frames = 0` — none
have been). -/
def extract_frames (c : Config) (v : VideoProps) (readable : ℕ)
    (wr : ℕ → Bool) : ExtractResult :=
  if v.fps = 0 then ⟨[], 0, true⟩
  else
    ⟨(loopOf c v readable wr).frames,
      if (loopOf c v readable wr).err then 0 else (loopOf c v readable wr).ret,
      (loopOf c v readable wr).err⟩

/-- Python truthiness test of extractor.py line 297:
`if self.end_time and self.end_time <= self.start_time`. A stored
`end_time` of `0` is falsy, so the check does not fire for it. -/
def windowInvalid (c : Config) : Bool :=
  match c.endTime with
  | some e => decide (e ≠ 0) && decide (e ≤ c.startTime)
  | none => false

/-- Observable outcome of `VideoFrameExtractor.run`: the returned boolean,
whether the downloaded temporary file still exists afterwards, and which
output files were produced. -/
structure RunResult where
  success : Bool
  tempFileExists : Bool
  metadataWritten : Bool
  frames : List Frame
  framesRet : ℕ
  reportWritten : Bool
deriving Repr, DecidableEq

/-- The `try` body of `VideoFrameExtractor.run` (extractor.py lines 291-315,
together with the `except` clauses at 317-322). External collaborators are
modelled by flags: `downloadOk` (`download_video` outcome), `partialFile`
(whether a partial download file exists when the download failed),
`metadataOpens` (whether `get_video_metadata`'s capture opens — when it does,
`video_metadata.json` is written at line 149, before the window check at
line 297), `interrupted` (a `KeyboardInterrupt` arriving during the work
phase, caught at line 317). In the `play_video=True` branch (lines 301-307)
`extract_frames` runs on its own thread while `VideoPlayer.play` runs on a
second, independently opened capture; the player shares no sampling state
with `extract_frames` (it only reads the immutable config and writes its own
`PlaybackState`), so the frames produced are those of `extract_frames` in
both branches. -/
def runBody (c : Config) (v : VideoProps) (readable : ℕ) (wr : ℕ → Bool)
    (playVideo createReport downloadOk partialFile metadataOpens
      interrupted : Bool) : RunResult :=
  if !downloadOk then
    { success := false, tempFileExists := partialFile, metadataWritten := false
      frames := [], framesRet := 0, reportWritten := false }
  else if windowInvalid c then
    { success := false, tempFileExists := true, metadataWritten := metadataOpens
      frames := [], framesRet := 0, reportWritten := false }
  else if interrupted then
    { success := false, tempFileExists := true, metadataWritten := metadataOpens
      frames := [], framesRet := 0, reportWritten := false }
  else
    let er := if playVideo then extract_frames c v readable wr
              else extract_frames c v readable wr
    { success := true, tempFileExists := true, metadataWritten := metadataOpens
      frames := er.frames, framesRet := er.ret, reportWritten := createReport }

/-- The `finally` clause of `run` (extractor.py lines 323-330): the
downloaded file is removed whenever it exists. The removal itself is
modelled as succeeding (an `os.remove` failure is only logged). -/
def cleanup (r : RunResult) : RunResult := { r with tempFileExists := false }

/-- `VideoFrameExtractor.run`: the `try` body followed by the `finally`
cleanup on every path. -/
def run (c : Config) (v : VideoProps) (readable : ℕ) (wr : ℕ → Bool)
    (playVideo createReport downloadOk partialFile metadataOpens
      interrupted : Bool) : RunResult :=
  cleanup (runBody c v readable wr playVideo createReport downloadOk
    partialFile metadataOpens interrupted)

/-- The end-frame formula as the spec states it (section 4.2):
`end_frame = min(frame_count, ceil(end_time*frame_rate))` if `end_time` is
set, else `frame_count`. Stated from the spec's words, for comparison with
`endFrame`, which is translated from the code. -/
def endFrameSpec (c : Config) (fps : ℚ) (total : ℕ) : ℤ :=
  match c.endTime with
  | some e => min (total : ℤ) ⌈e * fps⌉
  | none => (total : ℤ)

/-! ### Basic lemmas about the embedded arithmetic -/

theorem pyInt_of_nonneg (q : ℚ) (h : 0 ≤ q) : pyInt q = ⌊q⌋ := if_pos h

theorem pyInt_nonneg (q : ℚ) (h : 0 ≤ q) : 0 ≤ pyInt q := by
  rw [pyInt_of_nonneg q h]
  exact Int.floor_nonneg.mpr h

theorem startFrame_nonneg (c : Config) (fps : ℚ) (hs : 0 ≤ c.startTime)
    (hf : 0 ≤ fps) : 0 ≤ startFrame c fps := by
  unfold startFrame
  split
  · exact pyInt_nonneg _ (mul_nonneg hs hf)
  · exact le_refl 0

/-! ### Claim theorems -/

/-- C10: `__init__` clamps the quality to `max(1, min(100, quality))`, so the
stored quality lies in `[1, 100]`, and clamps a negative `start_time` to 0,
so the stored start time is nonnegative. -/
theorem init_clamps_quality_and_start (i : ℚ) (q : ℤ) (mw : Option ℕ)
    (s : ℚ) (e : Option ℚ) :
    (init i q mw s e).quality = max 1 (min 100 q) ∧
    1 ≤ (init i q mw s e).quality ∧ (init i q mw s e).quality ≤ 100 ∧
    (init i q mw s e).startTime = max 0 s ∧
    0 ≤ (init i q mw s e).startTime := by
  refine ⟨rfl, le_max_left 1 _, ?_, rfl, le_max_left 0 s⟩
  exact max_le (by norm_num) (min_le_left _ _)

/-- C9 counterexample: for width 1920, `max_width` 800 and height 1087 the
code writes height `int(1087 * (800/1920)) = 452`, while the claim's
`round(1087*800/1920)` is 453 — the code truncates, it does not round. -/
theorem scaledDims_round_counterexample :
    scaledDims (some 800) 1920 1087 = (800, 452) ∧
    round ((1087 : ℚ) * 800 / 1920) = 453 := by
  constructor
  · have h52 : pyInt ((1087 : ℚ) * ((800 : ℚ) / (1920 : ℚ))) = 452 := by
      norm_num [pyInt]
    simp [scaledDims, h52]
  · norm_num [round_eq]

/-- C9 (amended): when `max_width = m` is set with `0 < m` and the frame
width `w` exceeds it, the written frame is `m` wide and
`⌊h * m / w⌋` high (truncating division, not rounding); a frame whose width
does not exceed `m` is written unscaled. -/
theorem scaledDims_dims (m w h w2 h2 : ℕ) (hm : 0 < m) (hw : m < w)
    (hw2 : w2 ≤ m) :
    (scaledDims (some m) w h).1 = m ∧
    ((scaledDims (some m) w h).2 : ℤ) = ⌊(h : ℚ) * m / w⌋ ∧
    scaledDims (some m) w2 h2 = (w2, h2) := by
  have hm' : m ≠ 0 := hm.ne'
  refine ⟨?_, ?_, ?_⟩
  · simp [scaledDims, hw, hm']
  · have hq : (0 : ℚ) ≤ (h : ℚ) * ((m : ℚ) / (w : ℚ)) := by positivity
    show ((if m ≠ 0 ∧ m < w then
        (m, (pyInt ((h : ℚ) * ((m : ℚ) / (w : ℚ)))).toNat)
      else (w, h)).2 : ℤ) = _
    rw [if_pos ⟨hm', hw⟩, pyInt_of_nonneg _ hq]
    show ((⌊(h : ℚ) * ((m : ℚ) / (w : ℚ))⌋.toNat : ℤ)) = _
    rw [Int.toNat_of_nonneg (Int.floor_nonneg.mpr hq), mul_div_assoc]
  · have hnot : ¬ (m < w2) := by omega
    simp [scaledDims, hnot]

/-- C9 witness: the amended statement at width 1920, `max_width` 800,
height 1080 (and an already-small 640×480 frame left unscaled). -/
theorem scaledDims_dims_witness :
    (scaledDims (some 800) 1920 1080).1 = 800 ∧
    ((scaledDims (some 800) 1920 1080).2 : ℤ) = ⌊(1080 : ℚ) * 800 / 1920⌋ ∧
    scaledDims (some 800) 640 480 = (640, 480) :=
  scaledDims_dims 800 1920 1080 640 480 (by norm_num) (by norm_num)
    (by norm_num)

/-- C2 counterexample: with `end_time = 21/4` and `frame_rate = 2`
(`end_time*frame_rate = 10.5`, `frame_count = 100`), the code computes
`end_frame = int(10.5) = 10`, while the claim's
`min(frame_count, ceil(end_time*frame_rate))` is 11 — the code truncates,
it does not take the ceiling. -/
theorem endFrame_ceil_counterexample :
    endFrame (init 5 95 none 0 (some (21/4))) 2 100 = 10 ∧
    endFrameSpec (init 5 95 none 0 (some (21/4))) 2 100 = 11 := by
  have hfl : pyInt ((21 : ℚ) / 2) = 10 := by norm_num [pyInt]
  have hcl : ⌈(21 : ℚ) / 2⌉ = 11 := by
    rw [Int.ceil_eq_iff]
    constructor <;> norm_num
  constructor
  · simp only [endFrame, init]
    norm_num [hfl, min_def]
  · simp only [endFrameSpec, init]
    norm_num [hcl, min_def]

/-- C2 (amended): for `start_time ≥ 0` and `frame_rate > 0` the code's
`start_frame` equals `⌊start_time*frame_rate⌋`; for a set positive
`end_time`, `end_frame = min(frame_count, ⌊end_time*frame_rate⌋)`
(truncation, not ceiling); with `end_time` unset — or set to `0`, which is
falsy in Python and treated as unset — `end_frame = frame_count`. -/
theorem window_arithmetic (c cNone cZero : Config) (fps : ℚ) (total : ℕ)
    (e : ℚ) (hs : 0 ≤ c.startTime) (hf : 0 < fps) (he : c.endTime = some e)
    (he0 : 0 < e) (hn : cNone.endTime = none) (hz : cZero.endTime = some 0) :
    startFrame c fps = ⌊c.startTime * fps⌋ ∧
    endFrame c fps total = min (total : ℤ) ⌊e * fps⌋ ∧
    endFrame cNone fps total = total ∧
    endFrame cZero fps total = total := by
  refine ⟨?_, ?_, ?_, ?_⟩
  · unfold startFrame
    split
    · exact pyInt_of_nonneg _ (mul_nonneg hs hf.le)
    · have h0 : c.startTime = 0 := le_antisymm (not_lt.mp (by assumption)) hs
      rw [h0, zero_mul, Int.floor_zero]
  · unfold endFrame
    rw [he]
    simp only [ne_eq, he0.ne', not_false_iff, if_neg]
    rw [pyInt_of_nonneg _ (mul_nonneg he0.le hf.le), min_comm]
  · unfold endFrame
    rw [hn, min_self]
  · unfold endFrame
    rw [hz]
    simp

/-- C2 witness: the amended statement at `start_time = 1`, `fps = 3`,
`end_time = 2` (and sibling configurations with no end time and a zero end
time). -/
theorem window_arithmetic_witness :
    startFrame (init 5 95 none 1 (some 2)) 3 = ⌊(init 5 95 none 1 (some 2)).startTime * 3⌋ ∧
    endFrame (init 5 95 none 1 (some 2)) 3 100 = min (100 : ℤ) ⌊(2 : ℚ) * 3⌋ ∧
    endFrame (init 5 95 none 1 none) 3 100 = 100 ∧
    endFrame (init 5 95 none 1 (some 0)) 3 100 = 100 :=
  window_arithmetic (init 5 95 none 1 (some 2)) (init 5 95 none 1 none)
    (init 5 95 none 1 (some 0)) 3 100 2 (by norm_num [init]) (by norm_num)
    rfl (by norm_num) rfl rfl

/-- C6 counterexample: with `frame_rate = 30` and `interval = 0.01` the code
computes `interval_frames = int(0.3) = 0` — the claim "interval_frames used
by the sampler is always ≥ 1" is false. There is no configuration-error
guard: the first selection test `(frame_count - start_frame) % 0` raises
`ZeroDivisionError`, the generic `except` catches it, and `extract_frames`
returns 0 with no frames saved. -/
theorem interval_zero_counterexample :
    intervalFrames (init (1/100) 95 none 0 none) 30 = 0 ∧
    extract_frames (init (1/100) 95 none 0 none) ⟨30, 150, 640, 480⟩ 150
      (fun _ => true) = ⟨[], 0, true⟩ := by
  have hI : intervalFrames (init (1/100) 95 none 0 none) 30 = 0 := by
    norm_num [intervalFrames, init, pyInt]
  have hS : startFrame (init (1/100) 95 none 0 none) 30 = 0 := by
    norm_num [startFrame, init]
  have hE : endFrame (init (1/100) 95 none 0 none) 30 150 = 150 := by
    norm_num [endFrame, init]
  refine ⟨hI, ?_⟩
  have hloop : loopOf (init (1/100) 95 none 0 none) ⟨30, 150, 640, 480⟩ 150
      (fun _ => true) = ⟨[], 0, true⟩ := by
    simp only [loopOf, hI, hS, hE]
    norm_num
    simp [extractLoop]
  simp only [extract_frames, hloop]
  norm_num

/-- C6 (amended): whenever `int(fps*interval) = 0` and the window contains a
readable frame, the sampler neither selects every frame nor loops forever:
the first selection test raises, the exception is caught, and
`extract_frames` returns 0 having saved nothing — but there is no upfront
guard and `interval_frames` can be 0. -/
theorem extract_frames_zero_interval (c : Config) (v : VideoProps)
    (readable : ℕ) (wr : ℕ → Bool)
    (hI : intervalFrames c v.fps = 0)
    (hr : (startFrame c v.fps).toNat < readable)
    (hw : startFrame c v.fps < endFrame c v.fps v.totalFrames) :
    extract_frames c v readable wr = ⟨[], 0, true⟩ := by
  obtain ⟨n, hn⟩ : ∃ n,
      (endFrame c v.fps v.totalFrames - startFrame c v.fps).toNat = n + 1 :=
    ⟨(endFrame c v.fps v.totalFrames - startFrame c v.fps).toNat - 1, by omega⟩
  have hloop : loopOf c v readable wr = ⟨[], 0, true⟩ := by
    rw [loopOf, hn, extractLoop, if_neg (not_le.mpr hr), if_pos hI]
  simp [extract_frames, hloop]

/-- C6 witness: the amended statement at `fps = 30`, `interval = 0.01`,
150 readable frames. -/
theorem extract_frames_zero_interval_witness :
    extract_frames (init (1/100) 95 none 0 none) ⟨30, 150, 640, 480⟩ 150
      (fun _ => false) = ⟨[], 0, true⟩ :=
  extract_frames_zero_interval _ _ _ _
    (by norm_num [intervalFrames, init, pyInt])
    (by norm_num [startFrame, init])
    (by norm_num [startFrame, endFrame, init])

/-! ### Loop invariants of `extractLoop` -/

theorem mkFrame_absIndex (c : Config) (v : VideoProps) (wr : ℕ → Bool)
    (s f : ℕ) : (mkFrame c v wr s f).absIndex = f := rfl

theorem mkFrame_seqIndex (c : Config) (v : VideoProps) (wr : ℕ → Bool)
    (s f : ℕ) : (mkFrame c v wr s f).seqIndex = s := rfl

theorem mkFrame_ok (c : Config) (v : VideoProps) (wr : ℕ → Bool)
    (s f : ℕ) : (mkFrame c v wr s f).ok = wr f := rfl

/-- The count carried by the loop equals the starting count plus the number
of frames written so far: `saved_count` is incremented exactly once per
selected frame, with no check of the write result. -/
theorem extractLoop_ret (c : Config) (v : VideoProps) (readable : ℕ)
    (wr : ℕ → Bool) (startF : ℕ) (iF : ℤ) :
    ∀ (steps f s : ℕ),
      (extractLoop c v readable wr startF iF steps f s).ret =
        s + (extractLoop c v readable wr startF iF steps f s).frames.length
  | 0, f, s => by simp [extractLoop]
  | steps + 1, f, s => by
      by_cases h1 : readable ≤ f
      · simp [extractLoop, h1]
      · by_cases h2 : iF = 0
        · simp [extractLoop, h1, h2]
        · by_cases h3 : ((f : ℤ) - (startF : ℤ)) % iF = 0
          · have ih := extractLoop_ret c v readable wr startF iF steps (f + 1) (s + 1)
            simp only [extractLoop, if_neg h1, if_neg h2, if_pos h3,
              List.length_cons, ih]
            omega
          · have ih := extractLoop_ret c v readable wr startF iF steps (f + 1) s
            simp only [extractLoop, if_neg h1, if_neg h2, if_neg h3, ih]

/-- The sequence indices of the frames written by the loop form the
contiguous range starting at the incoming `saved_count`. -/
theorem extractLoop_seqIndex (c : Config) (v : VideoProps) (readable : ℕ)
    (wr : ℕ → Bool) (startF : ℕ) (iF : ℤ) :
    ∀ (steps f s : ℕ),
      (extractLoop c v readable wr startF iF steps f s).frames.map Frame.seqIndex =
        List.range' s (extractLoop c v readable wr startF iF steps f s).frames.length
  | 0, f, s => by simp [extractLoop]
  | steps + 1, f, s => by
      by_cases h1 : readable ≤ f
      · simp [extractLoop, h1]
      · by_cases h2 : iF = 0
        · simp [extractLoop, h1, h2]
        · by_cases h3 : ((f : ℤ) - (startF : ℤ)) % iF = 0
          · have ih := extractLoop_seqIndex c v readable wr startF iF steps (f + 1) (s + 1)
            simp only [extractLoop, if_neg h1, if_neg h2, if_pos h3,
              List.map_cons, mkFrame_seqIndex, List.length_cons, ih,
              List.range'_succ]
          · have ih := extractLoop_seqIndex c v readable wr startF iF steps (f + 1) s
            simp only [extractLoop, if_neg h1, if_neg h2, if_neg h3, ih]

/-- Membership characterisation of the absolute indices written by the loop:
exactly the readable indices of the window `[f, f + steps)` that sit on the
sampling grid `(index - start_frame) % interval_frames == 0`. -/
theorem extractLoop_mem_absIndex (c : Config) (v : VideoProps) (readable : ℕ)
    (wr : ℕ → Bool) (startF : ℕ) (iF : ℤ) (hI : iF ≠ 0) :
    ∀ (steps f s n : ℕ),
      (n ∈ (extractLoop c v readable wr startF iF steps f s).frames.map Frame.absIndex ↔
        (f ≤ n ∧ n < f + steps ∧ n < readable ∧
          ((n : ℤ) - (startF : ℤ)) % iF = 0))
  | 0, f, s, n => by
      simp only [extractLoop, List.map_nil, List.not_mem_nil, false_iff]
      rintro ⟨h1, h2, -, -⟩
      omega
  | steps + 1, f, s, n => by
      by_cases h1 : readable ≤ f
      · simp only [extractLoop, if_pos h1, List.map_nil, List.not_mem_nil,
          false_iff]
        rintro ⟨ha, -, hb, -⟩
        omega
      · by_cases h3 : ((f : ℤ) - (startF : ℤ)) % iF = 0
        · have ih := extractLoop_mem_absIndex c v readable wr startF iF hI
            steps (f + 1) (s + 1) n
          simp only [extractLoop, if_neg h1, if_neg hI, if_pos h3,
            List.map_cons, mkFrame_absIndex, List.mem_cons, ih]
          constructor
          · rintro (rfl | ⟨ha, hb, hc, hd⟩)
            · exact ⟨le_refl n, by omega, by omega, h3⟩
            · exact ⟨by omega, by omega, hc, hd⟩
          · rintro ⟨ha, hb, hc, hd⟩
            by_cases hnf : n = f
            · exact Or.inl hnf
            · exact Or.inr ⟨by omega, by omega, hc, hd⟩
        · have ih := extractLoop_mem_absIndex c v readable wr startF iF hI
            steps (f + 1) s n
          simp only [extractLoop, if_neg h1, if_neg hI, if_neg h3, ih]
          constructor
          · rintro ⟨ha, hb, hc, hd⟩
            exact ⟨by omega, by omega, hc, hd⟩
          · rintro ⟨ha, hb, hc, hd⟩
            have hnf : n ≠ f := by
              rintro rfl
              exact h3 hd
            exact ⟨by omega, by omega, hc, hd⟩

/-- The frames written, their order, the count and the error flag are all
independent of the write-result oracle: the code never looks at the value
`cv2.imwrite` returns. Only the recorded `ok` field differs. -/
theorem extractLoop_wr (c : Config) (v : VideoProps) (readable : ℕ)
    (wr wr' : ℕ → Bool) (startF : ℕ) (iF : ℤ) :
    ∀ (steps f s : ℕ),
      (extractLoop c v readable wr startF iF steps f s).frames.map Frame.absIndex =
        (extractLoop c v readable wr' startF iF steps f s).frames.map Frame.absIndex ∧
      (extractLoop c v readable wr startF iF steps f s).ret =
        (extractLoop c v readable wr' startF iF steps f s).ret ∧
      (extractLoop c v readable wr startF iF steps f s).err =
        (extractLoop c v readable wr' startF iF steps f s).err
  | 0, f, s => by simp [extractLoop]
  | steps + 1, f, s => by
      by_cases h1 : readable ≤ f
      · simp [extractLoop, h1]
      · by_cases h2 : iF = 0
        · simp [extractLoop, h1, h2]
        · by_cases h3 : ((f : ℤ) - (startF : ℤ)) % iF = 0
          · have ih := extractLoop_wr c v readable wr wr' startF iF steps (f + 1) (s + 1)
            simp only [extractLoop, if_neg h1, if_neg h2, if_pos h3,
              List.map_cons, mkFrame_absIndex]
            exact ⟨by rw [ih.1], ih.2.1, ih.2.2⟩
          · have ih := extractLoop_wr c v readable wr wr' startF iF steps (f + 1) s
            simp only [extractLoop, if_neg h1, if_neg h2, if_neg h3]
            exact ih

/-- C5: the sequence indices of the saved frames — the zero-padded counters
in the saved filenames — are exactly `0, 1, 2, …`: contiguous from 0, in
order, independent of the absolute frame indices sampled. -/
theorem extract_frames_seq_contiguous (c : Config) (v : VideoProps)
    (readable : ℕ) (wr : ℕ → Bool) :
    (extract_frames c v readable wr).frames.map Frame.seqIndex =
      List.range (extract_frames c v readable wr).frames.length := by
  by_cases hfz : v.fps = 0
  · simp [extract_frames, hfz]
  · have h := extractLoop_seqIndex c v readable wr (startFrame c v.fps).toNat
      (intervalFrames c v.fps)
      (endFrame c v.fps v.totalFrames - startFrame c v.fps).toNat
      (startFrame c v.fps).toNat 0
    simp only [extract_frames, if_neg hfz]
    rw [List.range_eq_range']
    exact h

/-- C1 counterexample: with `frame_rate = 1` and `interval_seconds = 1.5`,
the code computes `interval_frames = int(1 * 1.5) = 1` while the claim's
`round(1 * 1.5)` is 2; consequently on a 4-frame source the code saves every
frame (absolute indices 0,1,2,3), not the round-based progression 0,2. -/
theorem interval_round_counterexample :
    intervalFrames (init (3/2) 95 none 0 none) 1 = 1 ∧
    round ((1 : ℚ) * (3/2)) = 2 ∧
    (extract_frames (init (3/2) 95 none 0 none) ⟨1, 4, 640, 480⟩ 4
      (fun _ => true)).frames.map Frame.absIndex = [0, 1, 2, 3] := by
  have hI : intervalFrames (init (3/2) 95 none 0 none) 1 = 1 := by
    norm_num [intervalFrames, init, pyInt]
  have hS : startFrame (init (3/2) 95 none 0 none) 1 = 0 := by
    norm_num [startFrame, init]
  have hE : endFrame (init (3/2) 95 none 0 none) 1 4 = 4 := by
    norm_num [endFrame, init]
  refine ⟨hI, by norm_num [round_eq], ?_⟩
  have hframes : (extract_frames (init (3/2) 95 none 0 none) ⟨1, 4, 640, 480⟩ 4
      (fun _ => true)).frames =
      (loopOf (init (3/2) 95 none 0 none) ⟨1, 4, 640, 480⟩ 4
        (fun _ => true)).frames := by
    simp only [extract_frames]
    norm_num
  rw [hframes]
  simp only [loopOf, hI, hS, hE]
  norm_num
  simp [extractLoop, mkFrame]

/-- C1 (amended): `interval_frames = int(frame_rate * interval_seconds)`
(truncation, which is the floor for the positive products the claim ranges
over — not `round`), and provided `interval_frames ≥ 1`, the absolute frame
indices saved are exactly the arithmetic progression `start_frame,
start_frame + interval_frames, start_frame + 2*interval_frames, …`
truncated at `end_frame`, restricted to readable indices. -/
theorem extract_frames_progression (c : Config) (v : VideoProps)
    (readable : ℕ) (wr : ℕ → Bool) (n : ℕ) (hf : 0 < v.fps)
    (hs : 0 ≤ c.startTime) (hI : 1 ≤ intervalFrames c v.fps) :
    intervalFrames c v.fps = ⌊v.fps * c.interval⌋ ∧
    (n ∈ (extract_frames c v readable wr).frames.map Frame.absIndex ↔
      ((∃ k : ℕ, (n : ℤ) = startFrame c v.fps + k * intervalFrames c v.fps) ∧
        (n : ℤ) < endFrame c v.fps v.totalFrames ∧ n < readable)) := by
  have hq : 0 ≤ v.fps * c.interval := by
    by_contra hneg
    push_neg at hneg
    have hle : intervalFrames c v.fps ≤ 0 := by
      unfold intervalFrames pyInt
      rw [if_neg (not_le.mpr hneg)]
      exact Int.ceil_le.mpr (by exact_mod_cast hneg.le)
    omega
  refine ⟨pyInt_of_nonneg _ hq, ?_⟩
  have hfz : v.fps ≠ 0 := hf.ne'
  have hsF : 0 ≤ startFrame c v.fps := startFrame_nonneg c v.fps hs hf.le
  have hIne : intervalFrames c v.fps ≠ 0 := by omega
  have hmem := extractLoop_mem_absIndex c v readable wr
    (startFrame c v.fps).toNat (intervalFrames c v.fps) hIne
    (endFrame c v.fps v.totalFrames - startFrame c v.fps).toNat
    (startFrame c v.fps).toNat 0 n
  rw [Int.toNat_of_nonneg hsF] at hmem
  have hframes : (extract_frames c v readable wr).frames =
      (extractLoop c v readable wr (startFrame c v.fps).toNat
        (intervalFrames c v.fps)
        (endFrame c v.fps v.totalFrames - startFrame c v.fps).toNat
        (startFrame c v.fps).toNat 0).frames := by
    simp [extract_frames, loopOf, hfz]
  rw [hframes, hmem]
  set sF := startFrame c v.fps with hsFdef
  set eF := endFrame c v.fps v.totalFrames with heFdef
  set iF := intervalFrames c v.fps with hiFdef
  constructor
  · rintro ⟨h1, h2, h3, h4⟩
    refine ⟨?_, by omega, h3⟩
    obtain ⟨j, hj⟩ := Int.dvd_of_emod_eq_zero h4
    have hj0 : 0 ≤ j := by
      by_contra hjneg
      push_neg at hjneg
      have hneg : iF * j < 0 := mul_neg_of_pos_of_neg (by omega) hjneg
      omega
    refine ⟨j.toNat, ?_⟩
    have hjt : ((j.toNat : ℤ)) = j := Int.toNat_of_nonneg hj0
    rw [hjt, mul_comm j iF]
    omega
  · rintro ⟨⟨k, hk⟩, h2, h3⟩
    have hknn : (0 : ℤ) ≤ (k : ℤ) * iF :=
      mul_nonneg (Int.natCast_nonneg k) (by omega)
    refine ⟨by omega, by omega, h3, ?_⟩
    have hsub : (n : ℤ) - (sF : ℤ) = (k : ℤ) * iF := by omega
    rw [hsub]
    exact Int.mul_emod_left k iF

/-- C1 witness: the spec's own section-8 scenario — `frame_rate = 24`,
`interval = 2 s`, `start_time = 10`, `end_time = 20`, 480 frames — where
`interval_frames = 48` and absolute index 288 = 240 + 1·48 is sampled. -/
theorem extract_frames_progression_witness :
    intervalFrames (init 2 95 none 10 (some 20)) (24 : ℚ) =
      ⌊(24 : ℚ) * (init 2 95 none 10 (some 20)).interval⌋ ∧
    (288 ∈ (extract_frames (init 2 95 none 10 (some 20))
        ⟨24, 480, 640, 480⟩ 480 (fun _ => true)).frames.map Frame.absIndex ↔
      ((∃ k : ℕ, (288 : ℤ) = startFrame (init 2 95 none 10 (some 20)) 24 +
          k * intervalFrames (init 2 95 none 10 (some 20)) 24) ∧
        (288 : ℤ) < endFrame (init 2 95 none 10 (some 20)) 24 480 ∧
        288 < 480)) :=
  extract_frames_progression (init 2 95 none 10 (some 20))
    ⟨24, 480, 640, 480⟩ 480 (fun _ => true) 288 (by norm_num)
    (by norm_num [init]) (by norm_num [intervalFrames, init, pyInt])

/-- C7 counterexample: a source with one selected frame whose write fails —
`extract_frames` still returns a count of 1 although 0 frames were written
successfully: the claim that the count equals the number of successful
writes (with failed frames skipped) is false. -/
theorem write_failure_counterexample :
    (extract_frames (init 1 95 none 0 none) ⟨1, 1, 640, 480⟩ 1
      (fun _ => false)).ret = 1 ∧
    ((extract_frames (init 1 95 none 0 none) ⟨1, 1, 640, 480⟩ 1
      (fun _ => false)).frames.filter (fun fr => fr.ok)).length = 0 := by
  have hI : intervalFrames (init 1 95 none 0 none) 1 = 1 := by
    norm_num [intervalFrames, init, pyInt]
  have hS : startFrame (init 1 95 none 0 none) 1 = 0 := by
    norm_num [startFrame, init]
  have hE : endFrame (init 1 95 none 0 none) 1 1 = 1 := by
    norm_num [endFrame, init]
  have hloop : loopOf (init 1 95 none 0 none) ⟨1, 1, 640, 480⟩ 1
      (fun _ => false) =
      ⟨[mkFrame (init 1 95 none 0 none) ⟨1, 1, 640, 480⟩ (fun _ => false) 0 0],
        1, false⟩ := by
    simp only [loopOf, hI, hS, hE]
    norm_num
    simp [extractLoop]
  constructor
  · simp only [extract_frames, hloop]
    norm_num
  · simp only [extract_frames, hloop]
    norm_num [mkFrame]

/-- C7 (amended): the sampler never inspects the result of a frame write:
the returned count and the selected frame indices are identical for any two
write-outcome oracles, and (absent the `interval_frames = 0` exception) the
returned count equals the number of selected frames — not the number of
frames actually written successfully. A failing write is neither logged nor
skipped; extraction does continue past it. -/
theorem extract_frames_ignores_write_failures (c : Config) (v : VideoProps)
    (readable : ℕ) (wr wr' : ℕ → Bool) :
    (extract_frames c v readable wr).ret =
      (extract_frames c v readable wr').ret ∧
    (extract_frames c v readable wr).frames.map Frame.absIndex =
      (extract_frames c v readable wr').frames.map Frame.absIndex ∧
    (extract_frames c v readable wr).ret =
      (if (extract_frames c v readable wr).err then 0
        else (extract_frames c v readable wr).frames.length) := by
  by_cases hfz : v.fps = 0
  · simp [extract_frames, hfz]
  · have hwr := extractLoop_wr c v readable wr wr' (startFrame c v.fps).toNat
      (intervalFrames c v.fps)
      (endFrame c v.fps v.totalFrames - startFrame c v.fps).toNat
      (startFrame c v.fps).toNat 0
    have hret := extractLoop_ret c v readable wr (startFrame c v.fps).toNat
      (intervalFrames c v.fps)
      (endFrame c v.fps v.totalFrames - startFrame c v.fps).toNat
      (startFrame c v.fps).toNat 0
    simp only [extract_frames, if_neg hfz, loopOf]
    refine ⟨?_, hwr.1, ?_⟩
    · rw [hwr.2.1, hwr.2.2]
    · rw [hret]
      simp

/-- C8: on every terminal outcome of `run` — success, any failure, or a
`KeyboardInterrupt` — the `finally` clause has removed the downloaded
temporary file, so it is absent afterwards. -/
theorem run_removes_temp_file (c : Config) (v : VideoProps) (readable : ℕ)
    (wr : ℕ → Bool) (playVideo createReport downloadOk partialFile
      metadataOpens interrupted : Bool) :
    (run c v readable wr playVideo createReport downloadOk partialFile
      metadataOpens interrupted).tempFileExists = false := rfl

/-- C4: the `play_video=True` and `play_video=False` modes of `run` produce
identical outcomes — in particular the same saved frames, hence the same
count and the same sequence-index-to-timestamp mapping: both branches run
the same `extract_frames` over its own capture, and playback shares no
sampling state with it. -/
theorem run_play_video_equiv (c : Config) (v : VideoProps) (readable : ℕ)
    (wr : ℕ → Bool) (createReport downloadOk partialFile metadataOpens
      interrupted : Bool) :
    run c v readable wr true createReport downloadOk partialFile
      metadataOpens interrupted =
    run c v readable wr false createReport downloadOk partialFile
      metadataOpens interrupted := rfl

/-- C3 counterexample: with `start_time = 10` and `end_time = 5` the window
is invalid and `run` returns failure — but it has already downloaded the
video and written `video_metadata.json` (the check at extractor.py line 297
runs after `get_video_metadata()` at line 295), so the claim "produces no
output files (no metadata file)" is false. -/
theorem invalid_window_counterexample :
    windowInvalid (init 5 95 none 10 (some 5)) = true ∧
    (run (init 5 95 none 10 (some 5)) ⟨30, 150, 640, 480⟩ 150 (fun _ => true)
      true true true false true false).success = false ∧
    (run (init 5 95 none 10 (some 5)) ⟨30, 150, 640, 480⟩ 150 (fun _ => true)
      true true true false true false).metadataWritten = true := by
  have hw : windowInvalid (init 5 95 none 10 (some 5)) = true := by
    norm_num [windowInvalid, init]
  refine ⟨hw, ?_, ?_⟩ <;> simp [run, runBody, cleanup, hw]

/-- C3 (amended): when the stored `end_time` is truthy (set and nonzero) and
`end_time ≤ start_time`, `run` returns failure before extraction, playback
or report generation — no frames are saved and no report is written — but
only after the download and the metadata step, so `video_metadata.json` has
already been written whenever the metadata capture opened. -/
theorem run_invalid_window (c : Config) (v : VideoProps) (readable : ℕ)
    (wr : ℕ → Bool) (playVideo createReport partialFile metadataOpens
      interrupted : Bool) (h : windowInvalid c = true) :
    (run c v readable wr playVideo createReport true partialFile
      metadataOpens interrupted).success = false ∧
    (run c v readable wr playVideo createReport true partialFile
      metadataOpens interrupted).frames = [] ∧
    (run c v readable wr playVideo createReport true partialFile
      metadataOpens interrupted).framesRet = 0 ∧
    (run c v readable wr playVideo createReport true partialFile
      metadataOpens interrupted).reportWritten = false ∧
    (run c v readable wr playVideo createReport true partialFile
      metadataOpens interrupted).metadataWritten = metadataOpens := by
  simp [run, runBody, cleanup, h]

/-- C3 witness: the amended statement at `start_time = 10`, `end_time = 5`,
with the metadata capture opening. -/
theorem run_invalid_window_witness :
    (run (init 5 95 none 10 (some 5)) ⟨30, 150, 640, 480⟩ 150 (fun _ => true)
      false true true false true false).success = false ∧
    (run (init 5 95 none 10 (some 5)) ⟨30, 150, 640, 480⟩ 150 (fun _ => true)
      false true true false true false).frames = [] ∧
    (run (init 5 95 none 10 (some 5)) ⟨30, 150, 640, 480⟩ 150 (fun _ => true)
      false true true false true false).framesRet = 0 ∧
    (run (init 5 95 none 10 (some 5)) ⟨30, 150, 640, 480⟩ 150 (fun _ => true)
      false true true false true false).reportWritten = false ∧
    (run (init 5 95 none 10 (some 5)) ⟨30, 150, 640, 480⟩ 150 (fun _ => true)
      false true true false true false).metadataWritten = true :=
  run_invalid_window (init 5 95 none 10 (some 5)) ⟨30, 150, 640, 480⟩ 150
    (fun _ => true) false true false true false
    (by norm_num [windowInvalid, init])

end VFE
